import Mathlib

/-!
Shallow embedding of the status-notice engine of the azael-site repository:
the metadata parser `parseIssueBody`, the temporal classifiers
`isActiveSchedule` / `isUpcoming`, the category classifier `getAlertType`,
the dismissal store (`dismissAlert`, `isAlertDismissed`, `getActiveIssue`,
`getAllActiveIssues`), the fetcher `fetchStatusIssues`, and the two
selection variants of the StatusAlert component (`alertTypeSingle`,
`alertTypeAggregated`).

The source parses issue bodies with JavaScript regular expressions; here the
same searches are carried out by explicit recursive functions over `List Char`.
JavaScript `Date` values are embedded as `Option Int` (epoch milliseconds,
`none` for an Invalid Date), and the platform `new Date(string)` constructor
is a parameter `dateParse : String → Option Int` of the parser, since it is
host functionality, not repository code.  The embedding covers bodies over the
ASCII whitespace characters space, tab, carriage return and line feed, which
is where the JavaScript `\s` class and `String.prototype.trim` agree with the
model's `isWsChar`.
-/

namespace StatusAlert

/-- Character class of the source regexes' whitespace `\s` and of the
JavaScript `trim()` calls, restricted to the ASCII fragment. -/
def isWsChar (c : Char) : Bool :=
  c == ' ' || c == '\t' || c == '\n' || c == '\r'

/-- Line terminators: the characters NOT matched by `.` in a JavaScript
regular expression (ASCII fragment). -/
def isNewlineChar (c : Char) : Bool :=
  c == '\n' || c == '\r'

/-- Removes leading and trailing whitespace, as `String.prototype.trim`. -/
def trimChars (l : List Char) : List Char :=
  ((l.dropWhile isWsChar).reverse.dropWhile isWsChar).reverse

/-- Trim on strings, via the character-list model. -/
def jsTrim (s : String) : String :=
  String.mk (trimChars s.toList)

/-- Splits a list at the first occurrence of the pattern `pat`:
returns the part before the occurrence and the part after it.
This is the search step shared by the source's `body.match`,
`metadata.match` and `body.replace` regex calls. -/
def splitFirst (pat : List Char) : List Char → Option (List Char × List Char)
  | [] => none
  | c :: t =>
    if pat.isPrefixOf (c :: t) then some ([], (c :: t).drop pat.length)
    else
      match splitFirst pat t with
      | some (pre, post) => some (c :: pre, post)
      | none => none

/-- The capture group of `body.match(/<!--\s*([\s\S]*?)\s*-->/)`: the text
between the first `<!--` and the first subsequent `-->`, with surrounding
whitespace stripped (the greedy `\s*` on both sides of the lazy group). -/
def commentMatch (body : List Char) : Option (List Char) :=
  match splitFirst ("<!--".toList) body with
  | none => none
  | some (_, rest) =>
    match splitFirst ("-->".toList) rest with
    | none => none
    | some (interior, _) => some (trimChars interior)

/-- Given the text following an occurrence of a key, the value captured by
the regex tail `\s*(.+)` of `metadata.match(/key:\s*(.+)/)`, already trimmed
as every consumer of the capture does.  `\s*` greedily crosses newlines;
`.+` then needs at least one non-line-terminator character, otherwise the
match attempt at this occurrence fails (`none`). -/
def keyValueAfter (rest : List Char) : Option (List Char) :=
  let run := rest.takeWhile isWsChar
  let m := rest.dropWhile isWsChar
  match m with
  | [] => if run.any (fun c => !(isNewlineChar c)) then some [] else none
  | _ :: _ => some (trimChars (m.takeWhile (fun c => !(isNewlineChar c))))

/-- The (trimmed) capture of `metadata.match(/key:\s*(.+)/)`: scans for the
first occurrence of the literal key after which the value tail matches. -/
def keyMatch (key : List Char) : List Char → Option (List Char)
  | [] => none
  | c :: t =>
    if key.isPrefixOf (c :: t) then
      match keyValueAfter ((c :: t).drop key.length) with
      | some v => some v
      | none => keyMatch key t
    else keyMatch key t

/-- The effect of `body.replace(/<!--[\s\S]*?-->\s*/, '').trim()`: the first
comment block and the whitespace immediately after it are removed, and the
result is trimmed. -/
def stripComment (body : List Char) : List Char :=
  match splitFirst ("<!--".toList) body with
  | none => body
  | some (before, rest) =>
    match splitFirst ("-->".toList) rest with
    | none => body
    | some (_, post) => trimChars (before ++ post.dropWhile isWsChar)

/-- Comparison of two JavaScript `Date` values by `<=`: an Invalid Date
(`none`, i.e. `NaN` milliseconds) compares false against everything. -/
def dateLeB (a b : Option Int) : Bool :=
  match a, b with
  | some x, some y => decide (x ≤ y)
  | _, _ => false

/-- Comparison of two JavaScript `Date` values by `<`: an Invalid Date
(`none`) compares false against everything. -/
def dateLtB (a b : Option Int) : Bool :=
  match a, b with
  | some x, some y => decide (x < y)
  | _, _ => false

/-- The `ParsedStatusInfo` interface of the source.  A field of type
`Option (Option Int)` is an optional `Date`: the outer `Option` is presence
of the field (the key occurred), the inner one validity of the instant. -/
structure ParsedStatusInfo where
  start : Option (Option Int)
  end_ : Option (Option Int)
  expectedDown : Option (List String)
  expectedDegraded : Option (List String)
  description : String
  deriving DecidableEq, Repr

/-- Lower-casing as JavaScript `toLowerCase()` on the ASCII fragment,
written on the character list so that it reduces definitionally. -/
def lowerStr (s : String) : String :=
  String.mk (s.toList.map Char.toLower)

/-- Splitting on commas as JavaScript `split(',')`: the empty input gives
one empty segment, and empty segments between commas are kept. -/
def splitCommas : List Char → List (List Char)
  | [] => [[]]
  | c :: t =>
    if c == ',' then [] :: splitCommas t
    else
      match splitCommas t with
      | [] => [[c]]
      | h :: r => (c :: h) :: r

/-- The processing of an `expectedDown` / `expectedDegraded` capture:
`.split(',').map(s => s.trim())`. -/
def parseServiceList (v : List Char) : List String :=
  (splitCommas v).map (fun seg => String.mk (trimChars seg))

/-- The `parseIssueBody` function of the source.  `dateParse` stands for the
host's `new Date(string)` constructor (returning `none` for an unparsable
value, i.e. an Invalid Date). -/
def parseIssueBody (dateParse : String → Option Int) (body : String) :
    ParsedStatusInfo :=
  match commentMatch body.toList with
  | none =>
    { start := none, end_ := none, expectedDown := none,
      expectedDegraded := none, description := body }
  | some metadata =>
    { start := (keyMatch ("start:".toList) metadata).map
        (fun v => dateParse (String.mk v))
      end_ := (keyMatch ("end:".toList) metadata).map
        (fun v => dateParse (String.mk v))
      expectedDown := (keyMatch ("expectedDown:".toList) metadata).map
        (fun v => parseServiceList v)
      expectedDegraded := (keyMatch ("expectedDegraded:".toList) metadata).map
        (fun v => parseServiceList v)
      description := String.mk (stripComment body.toList) }

/-- Digits of a decimal numeral to a natural number. -/
def digitsToNat (l : List Char) : Nat :=
  l.foldl (fun n c => 10 * n + (c.toNat - 48)) 0

/-- A concrete stand-in for the host's date parser, used to instantiate the
parametric theorems: a string of decimal digits is taken as epoch
milliseconds, anything else is an Invalid Date. -/
def simpleDateParse (s : String) : Option Int :=
  match s.toList with
  | [] => none
  | l => if l.all (fun c => c.isDigit) then some (Int.ofNat (digitsToNat l))
         else none

/-- The `isActiveSchedule` check of the source: when both `start` and `end`
are present (a JavaScript `Date` object is truthy even when invalid), the
issue is active iff `now >= start && now <= end`; otherwise it is considered
active unconditionally. -/
def isActiveSchedule (now : Int) (parsedInfo : ParsedStatusInfo) : Bool :=
  match parsedInfo.start, parsedInfo.end_ with
  | some s, some e => dateLeB s (some now) && dateLeB (some now) e
  | _, _ => true

/-- The `isUpcoming` check of the source: `now < start` when `start` is
present, `false` otherwise. -/
def isUpcoming (now : Int) (parsedInfo : ParsedStatusInfo) : Bool :=
  match parsedInfo.start with
  | some s => dateLtB (some now) s
  | none => false

/-- One element of the `labels` array of a fetched issue. -/
structure IssueLabel where
  id : Int
  name : String
  color : String
  deriving DecidableEq, Repr

/-- The `StatusIssue` interface of the source. -/
structure StatusIssue where
  id : Int
  number : Int
  title : String
  body : String
  html_url : String
  state : String
  labels : List IssueLabel
  created_at : String
  updated_at : String
  deriving DecidableEq, Repr

/-- The alert categories of `getAlertType`. -/
inductive AlertType where
  | maintenance
  | status
  | info
  deriving DecidableEq, Repr

/-- The `getAlertType` function of the source: label precedence
maintenance, then status, then info (case-insensitive). -/
def getAlertType (labels : List IssueLabel) : AlertType :=
  let labelNames := labels.map (fun l => lowerStr l.name)
  if labelNames.contains "maintenance" then AlertType.maintenance
  else if labelNames.contains "status" then AlertType.status
  else AlertType.info

/-- The `dismissAlert` function of the source, on the session-stored list of
dismissed ids: appends the id when absent, does nothing when present. -/
def dismissAlert (dismissedAlerts : List Int) (issueId : Int) : List Int :=
  if dismissedAlerts.contains issueId then dismissedAlerts
  else dismissedAlerts ++ [issueId]

/-- The `isAlertDismissed` membership test of the source. -/
def isAlertDismissed (dismissedAlerts : List Int) (issueId : Int) : Bool :=
  dismissedAlerts.contains issueId

/-- The `getActiveIssue` function of the source: first fetched issue that is
not dismissed. -/
def getActiveIssue (dismissed : List Int) (issues : List StatusIssue) :
    Option StatusIssue :=
  issues.find? (fun issue => !(isAlertDismissed dismissed issue.id))

/-- The `getAllActiveIssues` function of the source: all fetched issues that
are not dismissed, in fetch order. -/
def getAllActiveIssues (dismissed : List Int) (issues : List StatusIssue) :
    List StatusIssue :=
  issues.filter (fun issue => !(isAlertDismissed dismissed issue.id))

/-- The fixed exclusion list of `getAffectedServicesFromLabels`. -/
def systemLabels : List String :=
  ["status", "maintenance", "bug", "enhancement", "help wanted", "question"]

/-- The `getAffectedServicesFromLabels` function of the source. -/
def getAffectedServicesFromLabels (labels : List IssueLabel) : List String :=
  (labels.filter (fun l => !(systemLabels.contains (lowerStr l.name)))).map
    (fun l => l.name)

/-- The `allStatusIssues` computed value of the aggregated StatusAlert
variant: non-dismissed issues labelled `status`. -/
def allStatusIssues (dismissed : List Int) (issues : List StatusIssue) :
    List StatusIssue :=
  issues.filter (fun issue =>
    (issue.labels.map (fun l => lowerStr l.name)).contains "status" &&
      !(isAlertDismissed dismissed issue.id))

/-- The `hasStatusAlert` computed value of the aggregated StatusAlert
variant. -/
def hasStatusAlert (dismissed : List Int) (issues : List StatusIssue) : Bool :=
  (allStatusIssues dismissed issues).length > 0

/-- The `alertType` computed value of the aggregated StatusAlert variant:
status issues take precedence; otherwise the category of the first
non-dismissed issue. -/
def alertTypeAggregated (dismissed : List Int) (issues : List StatusIssue) :
    AlertType :=
  if hasStatusAlert dismissed issues then AlertType.status
  else
    match getActiveIssue dismissed issues with
    | none => AlertType.info
    | some issue => getAlertType issue.labels

/-- The `alertType` computed value of the single-issue StatusAlert variant:
the category of the first non-dismissed issue, `info` when there is none. -/
def alertTypeSingle (dismissed : List Int) (issues : List StatusIssue) :
    AlertType :=
  match getActiveIssue dismissed issues with
  | none => AlertType.info
  | some issue => getAlertType issue.labels

/-- The decoded JSON payload of the GitHub search endpoint: `items` is the
top-level collection, `none` when the field is absent or falsy (the source
reads it as `data.items || []`). -/
structure SearchPayload where
  items : Option (List StatusIssue)
  deriving DecidableEq

/-- The possible outcomes of the awaited `fetch` + `response.json()` calls
inside `fetchStatusIssues`: a rejected network request, a response with a
non-success status (the source then throws
`new Error .GitHub API error: status.`), a body that fails JSON decoding,
or a decoded payload. -/
inductive FetchResponse where
  | networkError (message : String)
  | httpError (status : Nat)
  | jsonError (message : String)
  | ok (data : SearchPayload)
  deriving DecidableEq

/-- The reactive state owned by `useStatusAlert` that `fetchStatusIssues`
touches. -/
structure FetchState where
  issues : List StatusIssue
  isLoading : Bool
  error : Option String
  deriving DecidableEq

/-- The `fetchStatusIssues` function of the source, as a state transformer
over `FetchState` given the outcome of the network interaction: `isLoading`
is raised and `error` cleared at the start; the `catch` branch stores the
thrown message, the success branch stores `data.items || []`; the `finally`
branch lowers `isLoading`. -/
def fetchStatusIssues (s : FetchState) (response : FetchResponse) :
    FetchState :=
  let s1 : FetchState := { s with isLoading := true, error := none }
  match response with
  | FetchResponse.networkError message =>
    { s1 with error := some message, isLoading := false }
  | FetchResponse.httpError status =>
    { s1 with
      error := some ("GitHub API error: " ++ (toString status))
      isLoading := false }
  | FetchResponse.jsonError message =>
    { s1 with error := some message, isLoading := false }
  | FetchResponse.ok data =>
    { s1 with issues := data.items.getD [], isLoading := false }

/-- Whether the response outcome lands in the `catch` branch of
`fetchStatusIssues`. -/
def fetchFailed : FetchResponse → Bool
  | FetchResponse.ok _ => false
  | _ => true

end StatusAlert

namespace StatusAlert

/-! Concrete notices used by counterexamples and witnesses. -/

/-- A `maintenance` label as delivered by the issue tracker. -/
def maintLabel : IssueLabel :=
  { id := 1, name := "maintenance", color := "fbca04" }

/-- A `status` label as delivered by the issue tracker. -/
def statusLabel : IssueLabel :=
  { id := 2, name := "status", color := "d73a4a" }

/-- A body whose comment block schedules a window that has already ended
(start 0, end 10, both parsed by `simpleDateParse`). -/
def expiredBody : String :=
  "<!--\nstart: 0\nend: 10\n-->\nScheduled work"

/-- A maintenance notice carrying `expiredBody`. -/
def expiredMaintIssue : StatusIssue :=
  { id := 101
    number := 1
    title := "Old maintenance"
    body := expiredBody
    html_url := "https://example.com/1"
    state := "open"
    labels := [maintLabel]
    created_at := "2026-01-01T00:00:00Z"
    updated_at := "2026-01-01T00:00:00Z" }

/-- A body whose comment block schedules a window around instant 100
(start 0, end 200). -/
def activeMaintBody : String :=
  "<!--\nstart: 0\nend: 200\n-->\nDatabase upgrade"

/-- A maintenance notice carrying `activeMaintBody`. -/
def activeMaintIssue : StatusIssue :=
  { id := 201
    number := 2
    title := "Database upgrade"
    body := activeMaintBody
    html_url := "https://example.com/2"
    state := "open"
    labels := [maintLabel]
    created_at := "2026-01-01T00:00:00Z"
    updated_at := "2026-01-01T00:00:00Z" }

/-- A status notice reporting an incident, fetched after the maintenance
notice. -/
def coreApiIssue : StatusIssue :=
  { id := 202
    number := 3
    title := "core-api down"
    body := "core-api down"
    html_url := "https://example.com/3"
    state := "open"
    labels := [statusLabel]
    created_at := "2026-01-02T00:00:00Z"
    updated_at := "2026-01-02T00:00:00Z" }

/-- A body whose comment block has `start` and `end` values no instant
parser accepts. -/
def invalidScheduleBody : String :=
  "<!--\nstart: soon\nend: later\n-->\nUpgrade"

/-- A body with leading whitespace before its comment block and trailing
whitespace at its end. -/
def paddedBody : String :=
  " <!--a--> y "

/-- A plain informational notice with no comment block. -/
def sampleIssue : StatusIssue :=
  { id := 300
    number := 4
    title := "Note"
    body := "hello world"
    html_url := "https://example.com/4"
    state := "open"
    labels := []
    created_at := "2026-01-03T00:00:00Z"
    updated_at := "2026-01-03T00:00:00Z" }

/-- A fetch state holding one notice and a stale error, as before a new
fetch attempt. -/
def preState : FetchState :=
  { issues := [sampleIssue], isLoading := false, error := some "old" }

end StatusAlert

namespace StatusAlert

/-- C5: for every body that contains no comment block delimiter, the parse
result has `description` equal to the body verbatim and all four optional
fields absent. -/
theorem c5_no_block_identity (dateParse : String → Option Int) (body : String)
    (h : splitFirst ("<!--".toList) body.toList = none) :
    parseIssueBody dateParse body =
      { start := none, end_ := none, expectedDown := none,
        expectedDegraded := none, description := body } := by
  unfold parseIssueBody commentMatch
  rw [h]

/-- C5 witness: the parse of a delimiter-free body. -/
theorem c5_no_block_identity_witness :
    parseIssueBody simpleDateParse "hello world" =
      { start := none, end_ := none, expectedDown := none,
        expectedDegraded := none, description := "hello world" } :=
  c5_no_block_identity simpleDateParse "hello world" rfl

/-- C6: dismissing an id twice leaves the stored list exactly as dismissing
it once; every notice returned by `getAllActiveIssues` has a non-dismissed
id; and `getAllActiveIssues` preserves the input order (its output is a
sublist of the input). -/
theorem c6_dismissal_store :
    (∀ (dismissedAlerts : List Int) (issueId : Int),
      dismissAlert (dismissAlert dismissedAlerts issueId) issueId =
        dismissAlert dismissedAlerts issueId) ∧
    (∀ (dismissed : List Int) (issues : List StatusIssue)
      (issue : StatusIssue), issue ∈ getAllActiveIssues dismissed issues →
        dismissed.contains issue.id = false) ∧
    (∀ (dismissed : List Int) (issues : List StatusIssue),
      (getAllActiveIssues dismissed issues).Sublist issues) := by
  refine ⟨fun d issueId => ?_, fun d issues issue hmem => ?_, fun d issues => ?_⟩
  · unfold dismissAlert
    by_cases h : d.contains issueId = true
    · simp only [if_pos h]
    · have h2 : (d ++ [issueId]).contains issueId = true := by simp
      simp only [if_neg h, if_pos h2]
  · have := List.of_mem_filter hmem
    simpa [isAlertDismissed] using this
  · exact List.filter_sublist issues

/-- C6 witness: the store facts at a concrete dismissal list and notice. -/
theorem c6_dismissal_store_witness :
    ([7] : List Int).contains sampleIssue.id = false :=
  c6_dismissal_store.2.1 [7] [sampleIssue] sampleIssue (by decide)

/-- C7: classification bounds are inclusive: with valid `start = end = now`,
`isActiveSchedule` holds; with `start` one second (1000 ms) after `now` and
`end` absent, `isUpcoming` holds. -/
theorem c7_inclusive_bounds (now : Int) (p q : ParsedStatusInfo)
    (hs : p.start = some (some now)) (he : p.end_ = some (some now))
    (hqs : q.start = some (some (now + 1000))) (_hqe : q.end_ = none) :
    isActiveSchedule now p = true ∧ isUpcoming now q = true := by
  constructor
  · unfold isActiveSchedule
    rw [hs, he]
    simp [dateLeB]
  · unfold isUpcoming
    rw [hqs]
    simp [dateLtB]

/-- C7 witness: the inclusive bounds at instant 100. -/
theorem c7_inclusive_bounds_witness :
    isActiveSchedule 100
      { start := some (some 100), end_ := some (some 100),
        expectedDown := none, expectedDegraded := none,
        description := "" } = true ∧
    isUpcoming 100
      { start := some (some 1100), end_ := none,
        expectedDown := none, expectedDegraded := none,
        description := "" } = true :=
  c7_inclusive_bounds 100
    { start := some (some 100), end_ := some (some 100),
      expectedDown := none, expectedDegraded := none, description := "" }
    { start := some (some 1100), end_ := none,
      expectedDown := none, expectedDegraded := none, description := "" }
    rfl rfl rfl rfl

end StatusAlert

namespace StatusAlert

/-- C1 counterexample: a non-dismissed maintenance notice whose parsed
metadata has valid `start = 0` and `end = 10`, with `end` strictly before
`now = 100` (so its temporal state is expired), IS returned by
`getActiveIssue` and `getAllActiveIssues` and presented as a maintenance
unit by both selection variants: nothing drops expired notices. -/
theorem c1_counterexample :
    (parseIssueBody simpleDateParse expiredBody).start = some (some 0) ∧
    (parseIssueBody simpleDateParse expiredBody).end_ = some (some 10) ∧
    (10 : Int) < 100 ∧
    isActiveSchedule 100 (parseIssueBody simpleDateParse expiredBody) =
      false ∧
    getAlertType expiredMaintIssue.labels = AlertType.maintenance ∧
    isAlertDismissed [] expiredMaintIssue.id = false ∧
    getActiveIssue [] [expiredMaintIssue] = some expiredMaintIssue ∧
    getAllActiveIssues [] [expiredMaintIssue] = [expiredMaintIssue] ∧
    alertTypeSingle [] [expiredMaintIssue] = AlertType.maintenance ∧
    alertTypeAggregated [] [expiredMaintIssue] = AlertType.maintenance := by
  exact ⟨rfl, rfl, by norm_num, rfl, rfl, rfl, rfl, rfl, rfl, rfl⟩

/-- C1 amended: selection filters only by dismissal; temporal state never
drops a notice.  Every fetched notice whose id is not dismissed is kept by
`getAllActiveIssues` (expired or not), and some notice is then selected by
`getActiveIssue`. -/
theorem c1_amended (dismissed : List Int) (issues : List StatusIssue)
    (issue : StatusIssue) (hmem : issue ∈ issues)
    (hnd : dismissed.contains issue.id = false) :
    issue ∈ getAllActiveIssues dismissed issues ∧
    (getActiveIssue dismissed issues).isSome = true := by
  have hp : (!(isAlertDismissed dismissed issue.id)) = true := by
    rw [Bool.not_eq_true']
    exact hnd
  have hkeep : issue ∈ getAllActiveIssues dismissed issues := by
    unfold getAllActiveIssues
    exact List.mem_filter.mpr ⟨hmem, hp⟩
  refine ⟨hkeep, ?_⟩
  unfold getActiveIssue
  rw [List.find?_isSome]
  exact ⟨issue, hmem, hp⟩

/-- C1 amended witness: the expired maintenance notice is kept. -/
theorem c1_amended_witness :
    expiredMaintIssue ∈ getAllActiveIssues [] [expiredMaintIssue] ∧
    (getActiveIssue [] [expiredMaintIssue]).isSome = true :=
  c1_amended [] [expiredMaintIssue] expiredMaintIssue (by decide) rfl

/-- C2 counterexample: with a concurrently active maintenance notice fetched
before a non-dismissed status notice, the single-issue StatusAlert variant
presents the maintenance unit, not the status one — the status-over-
maintenance priority does NOT hold regardless of fetch order. -/
theorem c2_counterexample :
    isActiveSchedule 100 (parseIssueBody simpleDateParse activeMaintBody) =
      true ∧
    isAlertDismissed [] coreApiIssue.id = false ∧
    getAlertType coreApiIssue.labels = AlertType.status ∧
    alertTypeSingle [] [activeMaintIssue, coreApiIssue] =
      AlertType.maintenance ∧
    AlertType.maintenance ≠ AlertType.status := by
  exact ⟨rfl, rfl, rfl, rfl, by decide⟩

/-- C2 amended: in the aggregated StatusAlert variant the priority rule does
hold regardless of fetch order: whenever some fetched notice is tagged
`status` and not dismissed, `alertTypeAggregated` is `status`; the
single-issue variant instead shows the category of the first non-dismissed
notice. -/
theorem c2_amended (dismissed : List Int) (issues : List StatusIssue)
    (issue : StatusIssue) (hmem : issue ∈ issues)
    (hstatus : (issue.labels.map (fun l => lowerStr l.name)).contains
      "status" = true)
    (hnd : dismissed.contains issue.id = false) :
    alertTypeAggregated dismissed issues = AlertType.status := by
  have hkeep : issue ∈ allStatusIssues dismissed issues := by
    unfold allStatusIssues
    refine List.mem_filter.mpr ⟨hmem, ?_⟩
    rw [Bool.and_eq_true, Bool.not_eq_true']
    exact ⟨hstatus, hnd⟩
  have hlen : hasStatusAlert dismissed issues = true := by
    unfold hasStatusAlert
    have : 0 < (allStatusIssues dismissed issues).length :=
      List.length_pos.mpr (List.ne_nil_of_mem hkeep)
    simpa using this
  unfold alertTypeAggregated
  rw [if_pos hlen]

/-- C2 amended witness: the aggregated variant selects the status unit even
with the maintenance notice fetched first. -/
theorem c2_amended_witness :
    alertTypeAggregated [] [activeMaintIssue, coreApiIssue] =
      AlertType.status :=
  c2_amended [] [activeMaintIssue, coreApiIssue] coreApiIssue (by decide)
    rfl rfl

/-- C3 counterexample: a body whose `start` and `end` values parse to no
instant yields present-but-invalid fields, and `isActiveSchedule` returns
`false`, not `true`: the invalid instants are not treated as absent, and the
notice is not classified unscheduled. -/
theorem c3_counterexample :
    (parseIssueBody simpleDateParse invalidScheduleBody).start = some none ∧
    (parseIssueBody simpleDateParse invalidScheduleBody).end_ = some none ∧
    isActiveSchedule 100 (parseIssueBody simpleDateParse invalidScheduleBody)
      = false := by
  exact ⟨rfl, rfl, rfl⟩

/-- C3 amended: parsing never throws (the parser is total), but an
unparsable `start`/`end` value is present-but-invalid, not absent: whenever
both fields are present and invalid, `isActiveSchedule` is `false` (the
notice is treated as outside its window, not as unscheduled/active) and
`isUpcoming` is `false`. -/
theorem c3_amended (now : Int) (p : ParsedStatusInfo)
    (hs : p.start = some none) (he : p.end_ = some none) :
    isActiveSchedule now p = false ∧ isUpcoming now p = false := by
  constructor
  · unfold isActiveSchedule
    rw [hs, he]
    rfl
  · unfold isUpcoming
    rw [hs]
    rfl

/-- C3 amended witness: the unparsable schedule at instant 50. -/
theorem c3_amended_witness :
    isActiveSchedule 50 (parseIssueBody simpleDateParse invalidScheduleBody)
      = false ∧
    isUpcoming 50 (parseIssueBody simpleDateParse invalidScheduleBody)
      = false :=
  c3_amended 50 (parseIssueBody simpleDateParse invalidScheduleBody) rfl rfl

/-- C4 counterexample: for the body consisting of a space, a comment block,
then the text fragment, removing only the block and its immediately
trailing whitespace would give the string of a space, then y, then a space;
the parser instead yields the fully trimmed single character, so leading
and trailing whitespace of the body are NOT preserved. -/
theorem c4_counterexample :
    (parseIssueBody simpleDateParse paddedBody).description = "y" ∧
    (parseIssueBody simpleDateParse paddedBody).description ≠ " y " := by
  exact ⟨rfl, by decide⟩

/-- C4 amended: for every body containing a comment block, `description` is
the body with the matched block and the whitespace immediately after it
removed, and the result then trimmed of leading and trailing whitespace
(the final trim is what the claim omitted). -/
theorem c4_amended (dateParse : String → Option Int) (body : String)
    (before rest interior post : List Char)
    (h1 : splitFirst ("<!--".toList) body.toList = some (before, rest))
    (h2 : splitFirst ("-->".toList) rest = some (interior, post)) :
    (parseIssueBody dateParse body).description =
      String.mk (trimChars (before ++ post.dropWhile isWsChar)) := by
  unfold parseIssueBody commentMatch stripComment
  simp only [h1, h2]

/-- C4 amended witness: the padded body's description is the trimmed
remainder. -/
theorem c4_amended_witness :
    (parseIssueBody simpleDateParse paddedBody).description =
      String.mk (trimChars ((" ".toList) ++ (" y ".toList).dropWhile
        isWsChar)) :=
  c4_amended simpleDateParse paddedBody (" ".toList) ("a--> y ".toList)
    ("a".toList) (" y ".toList) rfl rfl

end StatusAlert

namespace StatusAlert

/-- C8: whenever the metadata block yields a captured value for
`expectedDown` or `expectedDegraded`, the parsed field is exactly that
value split on commas with every segment trimmed, keeping empty segments;
on the value a comma comma b this gives a three-element list whose middle
element is the empty string. -/
theorem c8_service_lists :
    (∀ (dateParse : String → Option Int) (body : String)
      (metadata v : List Char),
        commentMatch body.toList = some metadata →
        keyMatch ("expectedDown:".toList) metadata = some v →
        (parseIssueBody dateParse body).expectedDown =
          some ((splitCommas v).map (fun seg => String.mk (trimChars seg)))) ∧
    (∀ (dateParse : String → Option Int) (body : String)
      (metadata v : List Char),
        commentMatch body.toList = some metadata →
        keyMatch ("expectedDegraded:".toList) metadata = some v →
        (parseIssueBody dateParse body).expectedDegraded =
          some ((splitCommas v).map (fun seg => String.mk (trimChars seg)))) ∧
    (parseServiceList ("a,,b".toList) = ["a", "", "b"]) ∧
    (∀ dateParse,
      (parseIssueBody dateParse "<!--expectedDown: a,,b-->").expectedDown =
        some ["a", "", "b"]) := by
  refine ⟨?_, ?_, rfl, fun dateParse => rfl⟩
  · intro dateParse body metadata v hm hv
    unfold parseIssueBody
    rw [hm]
    simp only [hv, Option.map_some]
    rfl
  · intro dateParse body metadata v hm hv
    unfold parseIssueBody
    rw [hm]
    simp only [hv, Option.map_some]
    rfl

/-- C8 witness: the comma-split law applied to a concrete body whose
`expectedDown` value is a comma comma b. -/
theorem c8_service_lists_witness :
    (parseIssueBody simpleDateParse
      "<!--expectedDown: a,,b\nexpectedDegraded: x , y-->").expectedDown =
      some ((splitCommas ("a,,b".toList)).map
        (fun seg => String.mk (trimChars seg))) ∧
    (parseIssueBody simpleDateParse
      "<!--expectedDown: a,,b\nexpectedDegraded: x , y-->").expectedDegraded =
      some ((splitCommas ("x , y".toList)).map
        (fun seg => String.mk (trimChars seg))) :=
  ⟨c8_service_lists.1 simpleDateParse
    "<!--expectedDown: a,,b\nexpectedDegraded: x , y-->"
    ("expectedDown: a,,b\nexpectedDegraded: x , y".toList)
    ("a,,b".toList) rfl rfl,
   c8_service_lists.2.1 simpleDateParse
    "<!--expectedDown: a,,b\nexpectedDegraded: x , y-->"
    ("expectedDown: a,,b\nexpectedDegraded: x , y".toList)
    ("x , y".toList) rfl rfl⟩

/-- C9 counterexample: a decodable response payload that lacks the expected
top-level items collection does not fail: no error is recorded and the
stored notices are replaced by the empty list produced from the response. -/
theorem c9_counterexample :
    (fetchStatusIssues preState (FetchResponse.ok { items := none })).error
      = none ∧
    (fetchStatusIssues preState (FetchResponse.ok { items := none })).issues
      = [] ∧
    preState.issues ≠ [] := by
  exact ⟨rfl, rfl, by decide⟩

/-- C9 amended: a payload that fails JSON decoding makes the fetch fail
with the decode error message recorded and the notices unchanged; a
non-success HTTP status fails with the message GitHub API error followed by
the code; a payload that decodes but lacks the items collection is treated
as success with an empty notice list and no error. -/
theorem c9_amended :
    (∀ (s : FetchState) (message : String),
      fetchStatusIssues s (FetchResponse.jsonError message) =
        { issues := s.issues, isLoading := false, error := some message }) ∧
    (∀ (s : FetchState) (status : Nat),
      fetchStatusIssues s (FetchResponse.httpError status) =
        { issues := s.issues
          isLoading := false
          error := some ("GitHub API error: " ++ (toString status)) }) ∧
    (∀ (s : FetchState) (items : Option (List StatusIssue)),
      fetchStatusIssues s (FetchResponse.ok { items := items }) =
        { issues := items.getD [], isLoading := false, error := none }) := by
  exact ⟨fun s message => rfl, fun s status => rfl, fun s items => rfl⟩

/-- C10: whenever a fetch attempt fails (network error, non-success HTTP
status, or undecodable payload), the previously held notices are left
unchanged, the error state is set to a non-null message, and isLoading is
false after the attempt. -/
theorem c10_failure_state (s : FetchState) (r : FetchResponse)
    (h : fetchFailed r = true) :
    (fetchStatusIssues s r).issues = s.issues ∧
    (fetchStatusIssues s r).error ≠ none ∧
    (fetchStatusIssues s r).isLoading = false := by
  cases r with
  | networkError message => exact ⟨rfl, by simp [fetchStatusIssues], rfl⟩
  | httpError status => exact ⟨rfl, by simp [fetchStatusIssues], rfl⟩
  | jsonError message => exact ⟨rfl, by simp [fetchStatusIssues], rfl⟩
  | ok data => exact absurd h (by simp [fetchFailed])

/-- C10 witness: a failed network request leaves the held notice list
intact. -/
theorem c10_failure_state_witness :
    (fetchStatusIssues preState
      (FetchResponse.networkError "Failed to fetch")).issues =
        preState.issues ∧
    (fetchStatusIssues preState
      (FetchResponse.networkError "Failed to fetch")).error ≠ none ∧
    (fetchStatusIssues preState
      (FetchResponse.networkError "Failed to fetch")).isLoading = false :=
  c10_failure_state preState (FetchResponse.networkError "Failed to fetch")
    rfl

end StatusAlert
